import Mathlib

/-!
Shallow embedding of `src/client/ServerClient.ts` of postmark.js: a typed
facade over the Postmark transactional-email HTTP API.

JavaScript objects are embedded as ordered association lists of string keys,
object spread as sequential key update, and numbers as integers (every
identifier the client templates into a path is an integer).  The shared
request dispatcher (class `BaseClient`, whose source is not part of this
tree) is modelled from the specification as a function that builds one
outgoing HTTP request, performs one abstract exchange, and settles one
deferred outcome.  Each facade method of `ServerClient` is translated
line by line from the source.
-/

set_option autoImplicit false

namespace Postmark

/-- JSON-like JavaScript values: message payloads, filters, response bodies. -/
inductive JSVal where
  | null : JSVal
  | bool : Bool → JSVal
  | num : Int → JSVal
  | str : String → JSVal
  | arr : List JSVal → JSVal
  | obj : List (String × JSVal) → JSVal

/-- A JavaScript object: its ordered fields.  An object actually built by the
language has pairwise distinct keys. -/
abbrev Obj := List (String × JSVal)

/-- The keys of an object, in order. -/
def objKeys (o : Obj) : List String :=
  o.map Prod.fst

/-- Property read: the value stored under the first matching key, if any. -/
def objLookup (o : Obj) (k : String) : Option JSVal :=
  (o.find? (fun p => p.1 == k)).map Prod.snd

/-- Property write, the effect of one spread entry: update the existing field
in place, otherwise append a new field at the end. -/
def objSet (o : Obj) (k : String) (v : JSVal) : Obj :=
  match o with
  | [] => [(k, v)]
  | p :: rest => if p.1 == k then (k, v) :: rest else p :: objSet rest k v

/-- Object spread of `b` over `a`: write the fields of `b` over `a`, one at a
time, left to right — later entries win. -/
def spread (a b : Obj) : Obj :=
  b.foldl (fun acc p => objSet acc p.1 p.2) a

/-- An object literal, built by writing its fields into the empty object. -/
def objLit (fields : List (String × JSVal)) : Obj :=
  spread [] fields

/-- HTTP verbs used by the client (`HttpMethod` of `models/index`). -/
inductive HttpMethod where
  | GET : HttpMethod
  | POST : HttpMethod
  | PUT : HttpMethod
  | DELETE : HttpMethod
deriving DecidableEq

/-- A structured error as normalized by the dispatcher from a transport
failure or a non-2xx remote response: HTTP status, remote code, message. -/
structure PostmarkError where
  status : Nat
  code : Int
  message : String

/-- A fully built outgoing HTTP request: verb, path, headers, query
parameters, optional body. -/
structure HttpRequest where
  method : HttpMethod
  path : String
  headers : List (String × String)
  query : Obj
  body : Option JSVal

/-- The abstract transport plus remote service: an outgoing request either
yields the parsed 2xx response value or a structured error. -/
abbrev Exchange := HttpRequest → Except PostmarkError JSVal

/-- One observed invocation of a caller-supplied legacy callback:
`success v` records a call with arguments null and v, `failure e` records a
call with arguments e and undefined. -/
inductive CallbackCall where
  | success : JSVal → CallbackCall
  | failure : PostmarkError → CallbackCall

/-- Everything observable about one facade call: the settled deferred
outcome, the outgoing HTTP requests issued, and the legacy-callback
invocations performed. -/
structure DispatchResult where
  outcome : Except PostmarkError JSVal
  httpCalls : List HttpRequest
  callbackCalls : List CallbackCall

/-- Header names fixed by the library (`DefaultHeaderNames` of
`models/index`); the server-token header used by this client. -/
def DefaultHeaderNames.SERVER_TOKEN : String :=
  "X-Postmark-Server-Token"

/-- The state a `ServerClient` holds via its base class: the server token and
the authentication header name chosen at construction; immutable thereafter. -/
structure ServerClient where
  serverToken : String
  authHeaderName : String

/-- The `ServerClient` constructor:
`super(serverToken, DefaultHeaderNames.SERVER_TOKEN, options)`. -/
def ServerClient.make (serverToken : String) : ServerClient :=
  ⟨serverToken, DefaultHeaderNames.SERVER_TOKEN⟩

/-- Modelled from the spec: the request dispatcher of `BaseClient` (not under
src/) attaches the configured authentication header to the built request,
performs exactly one HTTP exchange, resolves or rejects the single deferred
result with exactly the outcome of that exchange, and, when the caller
supplied a legacy callback, invokes it exactly once — with the result and a
null error on success, with the error and no result on failure. -/
def dispatch (ex : Exchange) (req : HttpRequest) (hasCallback : Bool) : DispatchResult :=
  let out := ex req
  { outcome := out
    httpCalls := [req]
    callbackCalls :=
      if hasCallback then
        match out with
        | Except.ok v => [CallbackCall.success v]
        | Except.error e => [CallbackCall.failure e]
      else [] }

/-- Modelled from the spec: `performRequestWithBody` of the dispatcher (not
under src/) serializes the payload as the request body — no query
parameters — and dispatches. -/
def ServerClient.processRequestWithBody (c : ServerClient) (ex : Exchange)
    (m : HttpMethod) (path : String) (body : JSVal) (hasCallback : Bool) : DispatchResult :=
  dispatch ex ⟨m, path, [(c.authHeaderName, c.serverToken)], [], some body⟩ hasCallback

/-- Modelled from the spec: `performRequestWithoutBody` of the dispatcher
(not under src/) serializes the parameters as the query string — no body —
and dispatches. -/
def ServerClient.processRequestWithoutBody (c : ServerClient) (ex : Exchange)
    (m : HttpMethod) (path : String) (queryParameters : Obj) (hasCallback : Bool) : DispatchResult :=
  dispatch ex ⟨m, path, [(c.authHeaderName, c.serverToken)], queryParameters, none⟩ hasCallback

/-- Send a single email message: POST /email with the message as body. -/
def ServerClient.sendEmail (c : ServerClient) (ex : Exchange)
    (message : JSVal) (hasCallback : Bool) : DispatchResult :=
  c.processRequestWithBody ex HttpMethod.POST "/email" message hasCallback

/-- Send a batch of email messages: POST /email/batch with the array as body. -/
def ServerClient.sendEmailBatch (c : ServerClient) (ex : Exchange)
    (messages : List JSVal) (hasCallback : Bool) : DispatchResult :=
  c.processRequestWithBody ex HttpMethod.POST "/email/batch" (JSVal.arr messages) hasCallback

/-- Get bounce statistic information: GET /deliverystats. -/
def ServerClient.getDeliveryStatistics (c : ServerClient) (ex : Exchange)
    (hasCallback : Bool) : DispatchResult :=
  c.processRequestWithoutBody ex HttpMethod.GET "/deliverystats" [] hasCallback

/-- Get a batch of bounces; the caller-supplied filter defaults to the empty
object and is spread over the pagination defaults. -/
def ServerClient.getBounces (c : ServerClient) (ex : Exchange)
    (filter : Obj) (hasCallback : Bool) : DispatchResult :=
  let filter := spread (objLit [("count", JSVal.num 100), ("offset", JSVal.num 0)]) filter
  c.processRequestWithoutBody ex HttpMethod.GET "/bounces" filter hasCallback

/-- Get details for a specific bounce. -/
def ServerClient.getBounce (c : ServerClient) (ex : Exchange)
    (id : Int) (hasCallback : Bool) : DispatchResult :=
  c.processRequestWithoutBody ex HttpMethod.GET ("/bounces/" ++ toString id) [] hasCallback

/-- Get a bounce dump for a specific bounce. -/
def ServerClient.getBounceDump (c : ServerClient) (ex : Exchange)
    (id : Int) (hasCallback : Bool) : DispatchResult :=
  c.processRequestWithoutBody ex HttpMethod.GET ("/bounces/" ++ toString id ++ "/dump") [] hasCallback

/-- Activate an email address that was deactivated due to a bounce. -/
def ServerClient.activateBounce (c : ServerClient) (ex : Exchange)
    (id : Int) (hasCallback : Bool) : DispatchResult :=
  c.processRequestWithBody ex HttpMethod.PUT ("/bounces/" ++ toString id ++ "/activate") (JSVal.obj []) hasCallback

/-- Get the tags associated with bounces. -/
def ServerClient.getBounceTags (c : ServerClient) (ex : Exchange)
    (hasCallback : Bool) : DispatchResult :=
  c.processRequestWithoutBody ex HttpMethod.GET "/bounces/tags" [] hasCallback

/-- Get the information for the server associated with this client. -/
def ServerClient.getServer (c : ServerClient) (ex : Exchange)
    (hasCallback : Bool) : DispatchResult :=
  c.processRequestWithoutBody ex HttpMethod.GET "/server" [] hasCallback

/-- Modify the server associated with this client: PUT /server with the
options as body. -/
def ServerClient.editServer (c : ServerClient) (ex : Exchange)
    (options : JSVal) (hasCallback : Bool) : DispatchResult :=
  c.processRequestWithBody ex HttpMethod.PUT "/server" options hasCallback

/-- Get a batch of outbound messages; filter defaults as for getBounces. -/
def ServerClient.getOutboundMessages (c : ServerClient) (ex : Exchange)
    (filter : Obj) (hasCallback : Bool) : DispatchResult :=
  let filter := spread (objLit [("count", JSVal.num 100), ("offset", JSVal.num 0)]) filter
  c.processRequestWithoutBody ex HttpMethod.GET "/messages/outbound" filter hasCallback

/-- Get details for a specific outbound message. -/
def ServerClient.getOutboundMessageDetails (c : ServerClient) (ex : Exchange)
    (messageId : String) (hasCallback : Bool) : DispatchResult :=
  c.processRequestWithoutBody ex HttpMethod.GET ("/messages/outbound/" ++ messageId) [] hasCallback

/-- Get the dump for a specific outbound message. -/
def ServerClient.getOutboundMessageDump (c : ServerClient) (ex : Exchange)
    (messageId : String) (hasCallback : Bool) : DispatchResult :=
  c.processRequestWithoutBody ex HttpMethod.GET ("/messages/outbound/" ++ messageId ++ "/dump") [] hasCallback

/-- Get a batch of inbound messages; filter defaults as for getBounces. -/
def ServerClient.getInboundMessages (c : ServerClient) (ex : Exchange)
    (filter : Obj) (hasCallback : Bool) : DispatchResult :=
  let filter := spread (objLit [("count", JSVal.num 100), ("offset", JSVal.num 0)]) filter
  c.processRequestWithoutBody ex HttpMethod.GET "/messages/inbound" filter hasCallback

/-- Get details for a specific inbound message. -/
def ServerClient.getInboundMessageDetails (c : ServerClient) (ex : Exchange)
    (messageId : String) (hasCallback : Bool) : DispatchResult :=
  c.processRequestWithoutBody ex HttpMethod.GET ("/messages/inbound/" ++ messageId ++ "/details") [] hasCallback

/-- Cause an inbound message to bypass filtering rules. -/
def ServerClient.bypassBlockedInboundMessage (c : ServerClient) (ex : Exchange)
    (messageId : String) (hasCallback : Bool) : DispatchResult :=
  c.processRequestWithoutBody ex HttpMethod.PUT ("/messages/inbound/" ++ messageId ++ "/bypass") [] hasCallback

/-- Request a retry of the inbound hook for the specified message. -/
def ServerClient.retryInboundHookForMessage (c : ServerClient) (ex : Exchange)
    (messageId : String) (hasCallback : Bool) : DispatchResult :=
  c.processRequestWithoutBody ex HttpMethod.PUT ("/messages/inbound/" ++ messageId ++ "/retry") [] hasCallback

/-- The pagination defaults named by the specification. -/
def paginationDefaults : Obj :=
  [("count", JSVal.num 100), ("offset", JSVal.num 0)]

/-- The path of the (single) outgoing HTTP request of a facade call. -/
def sentPath (d : DispatchResult) : String :=
  ((d.httpCalls.head?).map HttpRequest.path).getD ""

/-- The verb of the (single) outgoing HTTP request of a facade call. -/
def sentMethod (d : DispatchResult) : HttpMethod :=
  ((d.httpCalls.head?).map HttpRequest.method).getD HttpMethod.GET

/-- The query parameters of the (single) outgoing HTTP request. -/
def sentQuery (d : DispatchResult) : Obj :=
  ((d.httpCalls.head?).map HttpRequest.query).getD []

/-- The body of the (single) outgoing HTTP request. -/
def sentBody (d : DispatchResult) : Option JSVal :=
  ((d.httpCalls.head?).map HttpRequest.body).getD none

/-- The headers of the (single) outgoing HTTP request. -/
def sentHeaders (d : DispatchResult) : List (String × String) :=
  ((d.httpCalls.head?).map HttpRequest.headers).getD []

/-- Reading the empty object misses. -/
theorem objLookup_nil (k : String) : objLookup [] k = none :=
  rfl

/-- Reading a non-empty object checks the first field, then the rest. -/
theorem objLookup_cons (p : String × JSVal) (rest : Obj) (k : String) :
    objLookup (p :: rest) k = if p.1 == k then some p.2 else objLookup rest k := by
  by_cases h : p.1 == k <;> simp [objLookup, List.find?, h]

/-- A key absent from an object reads as none. -/
theorem objLookup_eq_none (o : Obj) (k : String) (h : k ∉ objKeys o) :
    objLookup o k = none := by
  induction o with
  | nil => rfl
  | cons p rest ih =>
    have hk : ¬(p.1 == k) := by
      simp only [objKeys, List.map_cons, List.mem_cons] at h
      simp [beq_iff_eq]
      intro he
      exact h (Or.inl he.symm)
    rw [objLookup_cons, if_neg hk]
    exact ih (fun hm => h (by simp [objKeys] at hm ⊢; exact Or.inr hm))

/-- Reading after a property write: the written key returns the new value,
every other key reads as before. -/
theorem objLookup_objSet (o : Obj) (k : String) (v : JSVal) (q : String) :
    objLookup (objSet o k v) q = if k == q then some v else objLookup o q := by
  induction o with
  | nil =>
    by_cases h : k == q <;> simp [objSet, objLookup, List.find?, h]
  | cons p rest ih =>
    by_cases hpk : p.1 == k
    · have hpk' : p.1 = k := by simpa [beq_iff_eq] using hpk
      by_cases hkq : k == q <;>
        simp [objSet, hpk, objLookup_cons, hkq, hpk']
    · by_cases hkq : k == q
      · have hkq' : k = q := by simpa [beq_iff_eq] using hkq
        have hpq : ¬(p.1 == q) := by
          simp [beq_iff_eq] at hpk ⊢
          subst hkq'
          exact hpk
        simp [objSet, hpk, objLookup_cons, hpq, ih, hkq]
      · by_cases hpq : p.1 == q <;>
          simp [objSet, hpk, objLookup_cons, hpq, ih, hkq]

/-- Writing a key never removes the others: the key set after a property
write is the old key set, with the new key appended when it was absent. -/
theorem spread_cons (a : Obj) (p : String × JSVal) (rest : Obj) :
    spread a (p :: rest) = spread (objSet a p.1 p.2) rest :=
  rfl

/-- Spread of an object with pairwise distinct keys over a base object,
read back: the spread object wins on every key it has; the base object
answers the rest.  Caller values win on key collision. -/
theorem objLookup_spread (a b : Obj) (hb : (objKeys b).Nodup) (k : String) :
    objLookup (spread a b) k = (objLookup b k).or (objLookup a k) := by
  induction b generalizing a with
  | nil => simp [spread, objLookup_nil]
  | cons p rest ih =>
    have hrest : (objKeys rest).Nodup := by
      simpa [objKeys] using hb.of_cons
    have hnot : p.1 ∉ objKeys rest := by
      have := hb
      simp only [objKeys, List.map_cons, List.nodup_cons] at this
      simpa [objKeys] using this.1
    rw [spread_cons, ih _ hrest, objLookup_cons, objLookup_objSet]
    by_cases hk : p.1 == k
    · have hk' : p.1 = k := by simpa [beq_iff_eq] using hk
      rw [hk'] at hnot
      rw [objLookup_eq_none rest k hnot]
      simp [hk, hk']
    · simp [hk]

/-- A heap of JavaScript objects, addressed by allocation order.  Object
values are passed by reference; the facade receives a reference to the
filter object of the caller. -/
abbrev Heap := List Obj

/-- Dereference an object reference. -/
def Heap.read (h : Heap) (r : Nat) : Obj :=
  (h[r]?).getD []

/-- Allocate a fresh object; existing references are untouched. -/
def Heap.alloc (h : Heap) (o : Obj) : Heap × Nat :=
  (h ++ [o], h.length)

/-- Heap-level embedding of the defaults-merge step shared by the three list
methods: evaluating the spread allocates a fresh object holding the merge,
and the local variable is rebound to the fresh reference.  No write to any
existing object occurs. -/
def mergeDefaultsOnHeap (h : Heap) (filterRef : Nat) : Heap × Nat :=
  Heap.alloc h (spread (objLit [("count", JSVal.num 100), ("offset", JSVal.num 0)]) (Heap.read h filterRef))

/-- C1: For every list-returning method (getBounces, getOutboundMessages,
getInboundMessages) and every caller-supplied filter object, the query
parameters sent to the dispatcher are the merge of the defaults count 100,
offset 0 with the filter, the caller-supplied value winning on key
collision; calling with no filter yields exactly count 100, offset 0, and
calling with count 10 yields count 10, offset 0. -/
theorem claim_C1 (c : ServerClient) (ex : Exchange) (cb : Bool)
    (filter : Obj) (hf : (objKeys filter).Nodup) :
    (∀ k, objLookup (sentQuery (c.getBounces ex filter cb)) k
        = (objLookup filter k).or (objLookup paginationDefaults k))
    ∧ (∀ k, objLookup (sentQuery (c.getOutboundMessages ex filter cb)) k
        = (objLookup filter k).or (objLookup paginationDefaults k))
    ∧ (∀ k, objLookup (sentQuery (c.getInboundMessages ex filter cb)) k
        = (objLookup filter k).or (objLookup paginationDefaults k))
    ∧ sentQuery (c.getBounces ex [] cb) = [("count", JSVal.num 100), ("offset", JSVal.num 0)]
    ∧ sentQuery (c.getOutboundMessages ex [] cb) = [("count", JSVal.num 100), ("offset", JSVal.num 0)]
    ∧ sentQuery (c.getInboundMessages ex [] cb) = [("count", JSVal.num 100), ("offset", JSVal.num 0)]
    ∧ sentQuery (c.getBounces ex [("count", JSVal.num 10)] cb) = [("count", JSVal.num 10), ("offset", JSVal.num 0)]
    ∧ sentQuery (c.getOutboundMessages ex [("count", JSVal.num 10)] cb) = [("count", JSVal.num 10), ("offset", JSVal.num 0)]
    ∧ sentQuery (c.getInboundMessages ex [("count", JSVal.num 10)] cb) = [("count", JSVal.num 10), ("offset", JSVal.num 0)] := by
  refine ⟨?_, ?_, ?_, rfl, rfl, rfl, rfl, rfl, rfl⟩ <;>
    · intro k
      show objLookup (spread (objLit [("count", JSVal.num 100), ("offset", JSVal.num 0)]) filter) k = _
      rw [objLookup_spread _ _ hf]
      rfl

/-- Witness for C1 at the concrete filter count 10: the key-distinctness
hypothesis holds there and the merged query is count 10, offset 0. -/
theorem claim_C1_witness :
    (objKeys [("count", JSVal.num 10)]).Nodup
    ∧ sentQuery ((ServerClient.make "token").getBounces (fun _ => Except.ok JSVal.null)
        [("count", JSVal.num 10)] true) = [("count", JSVal.num 10), ("offset", JSVal.num 0)] :=
  ⟨by simp [objKeys],
   (claim_C1 (ServerClient.make "token") (fun _ => Except.ok JSVal.null) true
      [("count", JSVal.num 10)] (by simp [objKeys])).2.2.2.2.2.2.1⟩

/-- The facade call propagates the exchange: it issues exactly one outgoing
request and its settled outcome is exactly what the exchange produced for
that request, success or failure alike. -/
def propagatesExchange (ex : Exchange) (d : DispatchResult) : Prop :=
  ∃ req, d.httpCalls = [req] ∧ d.outcome = ex req

/-- The legacy callback is invoked exactly once, with the success value and a
null error when the deferred outcome is a success, and with the error and no
result when it is a failure — identical information on both paths. -/
def callbackConsistent (d : DispatchResult) : Prop :=
  d.callbackCalls.length = 1
  ∧ (∀ v, d.outcome = Except.ok v → d.callbackCalls = [CallbackCall.success v])
  ∧ (∀ e, d.outcome = Except.error e → d.callbackCalls = [CallbackCall.failure e])

/-- The dispatcher model satisfies the callback contract whenever a callback
was supplied. -/
theorem dispatch_callbackConsistent (ex : Exchange) (req : HttpRequest) :
    callbackConsistent (dispatch ex req true) := by
  cases hout : ex req <;> simp [callbackConsistent, dispatch, hout]

/-- C2: Every facade method sends exactly the HTTP verb and path template of
the external-interface table: sendEmail POSTs to /email with the message as
body, activateBounce PUTs to /bounces/id/activate, getInboundMessageDetails
GETs /messages/inbound/id/details, and likewise for every other row. -/
theorem claim_C2 (c : ServerClient) (ex : Exchange) (cb : Bool)
    (message : JSVal) (messages : List JSVal) (options : JSVal)
    (filter : Obj) (id : Int) (mid : String) :
    sentMethod (c.sendEmail ex message cb) = HttpMethod.POST
    ∧ sentPath (c.sendEmail ex message cb) = "/email"
    ∧ sentBody (c.sendEmail ex message cb) = some message
    ∧ sentMethod (c.sendEmailBatch ex messages cb) = HttpMethod.POST
    ∧ sentPath (c.sendEmailBatch ex messages cb) = "/email/batch"
    ∧ sentMethod (c.getDeliveryStatistics ex cb) = HttpMethod.GET
    ∧ sentPath (c.getDeliveryStatistics ex cb) = "/deliverystats"
    ∧ sentMethod (c.getBounces ex filter cb) = HttpMethod.GET
    ∧ sentPath (c.getBounces ex filter cb) = "/bounces"
    ∧ sentMethod (c.getBounce ex id cb) = HttpMethod.GET
    ∧ sentPath (c.getBounce ex id cb) = "/bounces/" ++ toString id
    ∧ sentMethod (c.getBounceDump ex id cb) = HttpMethod.GET
    ∧ sentPath (c.getBounceDump ex id cb) = "/bounces/" ++ toString id ++ "/dump"
    ∧ sentMethod (c.activateBounce ex id cb) = HttpMethod.PUT
    ∧ sentPath (c.activateBounce ex id cb) = "/bounces/" ++ toString id ++ "/activate"
    ∧ sentMethod (c.getBounceTags ex cb) = HttpMethod.GET
    ∧ sentPath (c.getBounceTags ex cb) = "/bounces/tags"
    ∧ sentMethod (c.getServer ex cb) = HttpMethod.GET
    ∧ sentPath (c.getServer ex cb) = "/server"
    ∧ sentMethod (c.editServer ex options cb) = HttpMethod.PUT
    ∧ sentPath (c.editServer ex options cb) = "/server"
    ∧ sentMethod (c.getOutboundMessages ex filter cb) = HttpMethod.GET
    ∧ sentPath (c.getOutboundMessages ex filter cb) = "/messages/outbound"
    ∧ sentMethod (c.getOutboundMessageDetails ex mid cb) = HttpMethod.GET
    ∧ sentPath (c.getOutboundMessageDetails ex mid cb) = "/messages/outbound/" ++ mid
    ∧ sentMethod (c.getOutboundMessageDump ex mid cb) = HttpMethod.GET
    ∧ sentPath (c.getOutboundMessageDump ex mid cb) = "/messages/outbound/" ++ mid ++ "/dump"
    ∧ sentMethod (c.getInboundMessages ex filter cb) = HttpMethod.GET
    ∧ sentPath (c.getInboundMessages ex filter cb) = "/messages/inbound"
    ∧ sentMethod (c.getInboundMessageDetails ex mid cb) = HttpMethod.GET
    ∧ sentPath (c.getInboundMessageDetails ex mid cb) = "/messages/inbound/" ++ mid ++ "/details"
    ∧ sentMethod (c.bypassBlockedInboundMessage ex mid cb) = HttpMethod.PUT
    ∧ sentPath (c.bypassBlockedInboundMessage ex mid cb) = "/messages/inbound/" ++ mid ++ "/bypass"
    ∧ sentMethod (c.retryInboundHookForMessage ex mid cb) = HttpMethod.PUT
    ∧ sentPath (c.retryInboundHookForMessage ex mid cb) = "/messages/inbound/" ++ mid ++ "/retry" := by
  and_intros <;> rfl

/-- C3: For every id-templated method, the identifier appears verbatim in the
request path in its templated position, with no further encoding or
validation performed by this layer; in particular getBounce 12345 issues
GET /bounces/12345. -/
theorem claim_C3 (c : ServerClient) (ex : Exchange) (cb : Bool)
    (id : Int) (mid : String) :
    sentPath (c.getBounce ex id cb) = "/bounces/" ++ toString id
    ∧ sentPath (c.getBounceDump ex id cb) = "/bounces/" ++ toString id ++ "/dump"
    ∧ sentPath (c.activateBounce ex id cb) = "/bounces/" ++ toString id ++ "/activate"
    ∧ sentPath (c.getOutboundMessageDetails ex mid cb) = "/messages/outbound/" ++ mid
    ∧ sentPath (c.getOutboundMessageDump ex mid cb) = "/messages/outbound/" ++ mid ++ "/dump"
    ∧ sentPath (c.getInboundMessageDetails ex mid cb) = "/messages/inbound/" ++ mid ++ "/details"
    ∧ sentPath (c.bypassBlockedInboundMessage ex mid cb) = "/messages/inbound/" ++ mid ++ "/bypass"
    ∧ sentPath (c.retryInboundHookForMessage ex mid cb) = "/messages/inbound/" ++ mid ++ "/retry"
    ∧ sentMethod (c.getBounce ex 12345 cb) = HttpMethod.GET
    ∧ sentPath (c.getBounce ex 12345 cb) = "/bounces/12345" := by
  and_intros <;> rfl

/-- C4: For every facade method and every input, the facade never raises in
its own codepath: the settled outcome is exactly the outcome of the dispatcher
for the one request issued — the same success value or the same error
object, with no local recovery, retry or transformation. -/
theorem claim_C4 (c : ServerClient) (ex : Exchange) (cb : Bool)
    (message : JSVal) (messages : List JSVal) (options : JSVal)
    (filter : Obj) (id : Int) (mid : String) :
    propagatesExchange ex (c.sendEmail ex message cb)
    ∧ propagatesExchange ex (c.sendEmailBatch ex messages cb)
    ∧ propagatesExchange ex (c.getDeliveryStatistics ex cb)
    ∧ propagatesExchange ex (c.getBounces ex filter cb)
    ∧ propagatesExchange ex (c.getBounce ex id cb)
    ∧ propagatesExchange ex (c.getBounceDump ex id cb)
    ∧ propagatesExchange ex (c.activateBounce ex id cb)
    ∧ propagatesExchange ex (c.getBounceTags ex cb)
    ∧ propagatesExchange ex (c.getServer ex cb)
    ∧ propagatesExchange ex (c.editServer ex options cb)
    ∧ propagatesExchange ex (c.getOutboundMessages ex filter cb)
    ∧ propagatesExchange ex (c.getOutboundMessageDetails ex mid cb)
    ∧ propagatesExchange ex (c.getOutboundMessageDump ex mid cb)
    ∧ propagatesExchange ex (c.getInboundMessages ex filter cb)
    ∧ propagatesExchange ex (c.getInboundMessageDetails ex mid cb)
    ∧ propagatesExchange ex (c.bypassBlockedInboundMessage ex mid cb)
    ∧ propagatesExchange ex (c.retryInboundHookForMessage ex mid cb) := by
  and_intros <;> exact ⟨_, rfl, rfl⟩

/-- C5: For every facade method, a supplied legacy callback is invoked
exactly once, with the result and a null error on success or with the error
and no result on failure, carrying the same object as the settled deferred
outcome. -/
theorem claim_C5 (c : ServerClient) (ex : Exchange)
    (message : JSVal) (messages : List JSVal) (options : JSVal)
    (filter : Obj) (id : Int) (mid : String) :
    callbackConsistent (c.sendEmail ex message true)
    ∧ callbackConsistent (c.sendEmailBatch ex messages true)
    ∧ callbackConsistent (c.getDeliveryStatistics ex true)
    ∧ callbackConsistent (c.getBounces ex filter true)
    ∧ callbackConsistent (c.getBounce ex id true)
    ∧ callbackConsistent (c.getBounceDump ex id true)
    ∧ callbackConsistent (c.activateBounce ex id true)
    ∧ callbackConsistent (c.getBounceTags ex true)
    ∧ callbackConsistent (c.getServer ex true)
    ∧ callbackConsistent (c.editServer ex options true)
    ∧ callbackConsistent (c.getOutboundMessages ex filter true)
    ∧ callbackConsistent (c.getOutboundMessageDetails ex mid true)
    ∧ callbackConsistent (c.getOutboundMessageDump ex mid true)
    ∧ callbackConsistent (c.getInboundMessages ex filter true)
    ∧ callbackConsistent (c.getInboundMessageDetails ex mid true)
    ∧ callbackConsistent (c.bypassBlockedInboundMessage ex mid true)
    ∧ callbackConsistent (c.retryInboundHookForMessage ex mid true) := by
  refine ⟨?_, ?_, ?_, ?_, ?_, ?_, ?_, ?_, ?_, ?_, ?_, ?_, ?_, ?_, ?_, ?_, ?_⟩ <;>
    exact dispatch_callbackConsistent ex _

/-- Witness for C5: with an exchange that succeeds with the string r, the
sendEmail callback is invoked with exactly that success value. -/
theorem claim_C5_witness :
    ((ServerClient.make "t").sendEmail (fun _ => Except.ok (JSVal.str "r"))
        (JSVal.obj []) true).callbackCalls = [CallbackCall.success (JSVal.str "r")] :=
  (claim_C5 (ServerClient.make "t") (fun _ => Except.ok (JSVal.str "r"))
      (JSVal.obj []) [] JSVal.null [] 0 "m").1.2.1 (JSVal.str "r") rfl

/-- C6: Every facade invocation performs exactly one call to the dispatcher —
one outbound HTTP exchange — and returns exactly one deferred result. -/
theorem claim_C6 (c : ServerClient) (ex : Exchange) (cb : Bool)
    (message : JSVal) (messages : List JSVal) (options : JSVal)
    (filter : Obj) (id : Int) (mid : String) :
    (c.sendEmail ex message cb).httpCalls.length = 1
    ∧ (c.sendEmailBatch ex messages cb).httpCalls.length = 1
    ∧ (c.getDeliveryStatistics ex cb).httpCalls.length = 1
    ∧ (c.getBounces ex filter cb).httpCalls.length = 1
    ∧ (c.getBounce ex id cb).httpCalls.length = 1
    ∧ (c.getBounceDump ex id cb).httpCalls.length = 1
    ∧ (c.activateBounce ex id cb).httpCalls.length = 1
    ∧ (c.getBounceTags ex cb).httpCalls.length = 1
    ∧ (c.getServer ex cb).httpCalls.length = 1
    ∧ (c.editServer ex options cb).httpCalls.length = 1
    ∧ (c.getOutboundMessages ex filter cb).httpCalls.length = 1
    ∧ (c.getOutboundMessageDetails ex mid cb).httpCalls.length = 1
    ∧ (c.getOutboundMessageDump ex mid cb).httpCalls.length = 1
    ∧ (c.getInboundMessages ex filter cb).httpCalls.length = 1
    ∧ (c.getInboundMessageDetails ex mid cb).httpCalls.length = 1
    ∧ (c.bypassBlockedInboundMessage ex mid cb).httpCalls.length = 1
    ∧ (c.retryInboundHookForMessage ex mid cb).httpCalls.length = 1 := by
  and_intros <;> rfl

/-- C7: The authentication header configured at construction — the server
token under the fixed server-token header name — is present and unaltered on
the outgoing request of every facade method. -/
theorem claim_C7 (token : String) (ex : Exchange) (cb : Bool)
    (message : JSVal) (messages : List JSVal) (options : JSVal)
    (filter : Obj) (id : Int) (mid : String) :
    (DefaultHeaderNames.SERVER_TOKEN, token) ∈ sentHeaders ((ServerClient.make token).sendEmail ex message cb)
    ∧ (DefaultHeaderNames.SERVER_TOKEN, token) ∈ sentHeaders ((ServerClient.make token).sendEmailBatch ex messages cb)
    ∧ (DefaultHeaderNames.SERVER_TOKEN, token) ∈ sentHeaders ((ServerClient.make token).getDeliveryStatistics ex cb)
    ∧ (DefaultHeaderNames.SERVER_TOKEN, token) ∈ sentHeaders ((ServerClient.make token).getBounces ex filter cb)
    ∧ (DefaultHeaderNames.SERVER_TOKEN, token) ∈ sentHeaders ((ServerClient.make token).getBounce ex id cb)
    ∧ (DefaultHeaderNames.SERVER_TOKEN, token) ∈ sentHeaders ((ServerClient.make token).getBounceDump ex id cb)
    ∧ (DefaultHeaderNames.SERVER_TOKEN, token) ∈ sentHeaders ((ServerClient.make token).activateBounce ex id cb)
    ∧ (DefaultHeaderNames.SERVER_TOKEN, token) ∈ sentHeaders ((ServerClient.make token).getBounceTags ex cb)
    ∧ (DefaultHeaderNames.SERVER_TOKEN, token) ∈ sentHeaders ((ServerClient.make token).getServer ex cb)
    ∧ (DefaultHeaderNames.SERVER_TOKEN, token) ∈ sentHeaders ((ServerClient.make token).editServer ex options cb)
    ∧ (DefaultHeaderNames.SERVER_TOKEN, token) ∈ sentHeaders ((ServerClient.make token).getOutboundMessages ex filter cb)
    ∧ (DefaultHeaderNames.SERVER_TOKEN, token) ∈ sentHeaders ((ServerClient.make token).getOutboundMessageDetails ex mid cb)
    ∧ (DefaultHeaderNames.SERVER_TOKEN, token) ∈ sentHeaders ((ServerClient.make token).getOutboundMessageDump ex mid cb)
    ∧ (DefaultHeaderNames.SERVER_TOKEN, token) ∈ sentHeaders ((ServerClient.make token).getInboundMessages ex filter cb)
    ∧ (DefaultHeaderNames.SERVER_TOKEN, token) ∈ sentHeaders ((ServerClient.make token).getInboundMessageDetails ex mid cb)
    ∧ (DefaultHeaderNames.SERVER_TOKEN, token) ∈ sentHeaders ((ServerClient.make token).bypassBlockedInboundMessage ex mid cb)
    ∧ (DefaultHeaderNames.SERVER_TOKEN, token) ∈ sentHeaders ((ServerClient.make token).retryInboundHookForMessage ex mid cb) := by
  and_intros <;> exact List.mem_singleton.mpr rfl

/-- C8: For every payload-carrying method and every payload value, the body
forwarded to the dispatcher is exactly the caller-supplied value, with no
local validation or transformation of its contents. -/
theorem claim_C8 (c : ServerClient) (ex : Exchange) (cb : Bool)
    (message : JSVal) (messages : List JSVal) (options : JSVal) :
    sentBody (c.sendEmail ex message cb) = some message
    ∧ sentBody (c.sendEmailBatch ex messages cb) = some (JSVal.arr messages)
    ∧ sentBody (c.editServer ex options cb) = some options := by
  and_intros <;> rfl

/-- C9: The caller-supplied filter object of a list-returning method is not
mutated by the call: the defaults merge allocates a fresh object, the
reference held by the caller reads back unchanged, and the query the three list
methods send is the content of the fresh object, not of the object of the caller. -/
theorem claim_C9 (h : Heap) (r : Nat) (hr : r < h.length) :
    Heap.read (mergeDefaultsOnHeap h r).1 r = Heap.read h r
    ∧ (mergeDefaultsOnHeap h r).2 ≠ r
    ∧ Heap.read (mergeDefaultsOnHeap h r).1 (mergeDefaultsOnHeap h r).2
        = spread paginationDefaults (Heap.read h r)
    ∧ (∀ c ex cb, sentQuery (ServerClient.getBounces c ex (Heap.read h r) cb)
        = Heap.read (mergeDefaultsOnHeap h r).1 (mergeDefaultsOnHeap h r).2)
    ∧ (∀ c ex cb, sentQuery (ServerClient.getOutboundMessages c ex (Heap.read h r) cb)
        = Heap.read (mergeDefaultsOnHeap h r).1 (mergeDefaultsOnHeap h r).2)
    ∧ (∀ c ex cb, sentQuery (ServerClient.getInboundMessages c ex (Heap.read h r) cb)
        = Heap.read (mergeDefaultsOnHeap h r).1 (mergeDefaultsOnHeap h r).2) := by
  have hfresh : Heap.read (mergeDefaultsOnHeap h r).1 (mergeDefaultsOnHeap h r).2
      = spread paginationDefaults (Heap.read h r) := by
    show Heap.read (h ++ [spread (objLit [("count", JSVal.num 100), ("offset", JSVal.num 0)]) (Heap.read h r)]) h.length = _
    unfold Heap.read
    rw [List.getElem?_append_right (Nat.le_refl h.length)]
    simp
    rfl
  refine ⟨?_, ?_, hfresh, ?_, ?_, ?_⟩
  · show Heap.read (h ++ [_]) r = Heap.read h r
    unfold Heap.read
    rw [List.getElem?_append_left hr]
  · exact fun he => Nat.lt_irrefl r (he ▸ hr)
  · intro c ex cb
    rw [hfresh]
    rfl
  · intro c ex cb
    rw [hfresh]
    rfl
  · intro c ex cb
    rw [hfresh]
    rfl

/-- Witness for C9: on a one-object heap holding a tag filter, the merge
leaves the object of the caller unchanged. -/
theorem claim_C9_witness :
    0 < ([[("tag", JSVal.str "w")]] : Heap).length
    ∧ Heap.read (mergeDefaultsOnHeap [[("tag", JSVal.str "w")]] 0).1 0
        = Heap.read [[("tag", JSVal.str "w")]] 0 :=
  ⟨Nat.zero_lt_one, (claim_C9 [[("tag", JSVal.str "w")]] 0 Nat.zero_lt_one).1⟩

/-- C10: Among the three payload-less PUT methods, activateBounce goes
through the with-body channel and serializes the empty object as the request
body, while bypassBlockedInboundMessage and retryInboundHookForMessage go
through the without-body channel, the empty object becoming the (empty)
query parameters and no body being sent. -/
theorem claim_C10 (c : ServerClient) (ex : Exchange) (cb : Bool)
    (id : Int) (mid : String) :
    sentMethod (c.activateBounce ex id cb) = HttpMethod.PUT
    ∧ sentBody (c.activateBounce ex id cb) = some (JSVal.obj [])
    ∧ sentQuery (c.activateBounce ex id cb) = []
    ∧ sentMethod (c.bypassBlockedInboundMessage ex mid cb) = HttpMethod.PUT
    ∧ sentBody (c.bypassBlockedInboundMessage ex mid cb) = none
    ∧ sentQuery (c.bypassBlockedInboundMessage ex mid cb) = []
    ∧ sentMethod (c.retryInboundHookForMessage ex mid cb) = HttpMethod.PUT
    ∧ sentBody (c.retryInboundHookForMessage ex mid cb) = none
    ∧ sentQuery (c.retryInboundHookForMessage ex mid cb) = [] := by
  and_intros <;> rfl

end Postmark
